import Mathlib

/-
  Verification of the offer-generator module (Next.js offers UI + REST client).

  The definitions below are a shallow embedding of the TypeScript sources:
  the offers Redux slice, the OffersApi REST client, the offers list page,
  the offer card, the create-offer page and the offer detail pages.  Server
  side operations (status update, generation pipeline, CRM push) exist in
  the repository only behind the REST boundary; where a property depends on
  them they are modelled from the specification, and each such definition
  says so in its doc comment.
-/

namespace OfferGen

/-- The Offer record, following the `Offer` interface of the API client
module, together with the CRM linkage fields (`raynet_company_id`,
`raynet_contact_id`, `raynet_opportunity_id`, `crm_opportunity_id`) that the
CRM-capable offer detail view reads on the same objects.  Nullable
TypeScript fields become `Option String`. -/
structure Offer where
  id : String
  company_name : String
  company_nip : Option String
  company_address : Option String
  contact_first_name : Option String
  contact_last_name : Option String
  contact_phone : Option String
  contact_email : Option String
  title : String
  valid_until : Option String
  description_file_path : Option String
  status : String
  document_path : Option String
  ai_generated_content : Option String
  raynet_company_id : Option String
  raynet_contact_id : Option String
  raynet_opportunity_id : Option String
  crm_opportunity_id : Option String
  created_at : String
  updated_at : String
  deriving Repr, DecidableEq

/-- Mirrored CRM company row (`CrmCompany` interface). -/
structure CrmCompany where
  id : String
  raynet_id : String
  name : String
  nip : Option String
  address : Option String
  deriving Repr, DecidableEq

/-- Mirrored CRM contact row (`CrmContact` interface). -/
structure CrmContact where
  id : String
  raynet_id : String
  first_name : Option String
  last_name : Option String
  phone : Option String
  email : Option String
  deriving Repr, DecidableEq

/-- JavaScript truthiness of a `string | null` value: `null` and the empty
string are falsy, every other string is truthy. -/
def truthyStr : Option String → Bool
  | none => false
  | some s => !(s == "")

/-- Observable client effects of the UI handlers: toast notifications,
network requests issued through the API client, and refetches. -/
inductive ClientAction where
  | toastError (msg : String)
  | toastSuccess (msg : String)
  | uploadRequest (offerId : String) (fileName : String)
  | refetchOffer
  deriving Repr, DecidableEq

/-- JavaScript `s.endsWith(t)`: the characters of `t` are a suffix of the
characters of `s` (spelled out over the character lists so that it
evaluates by kernel reduction). -/
def strEndsWith (s t : String) : Bool :=
  s.data.reverse.take t.data.length == t.data.reverse

/-- Extension check done by both upload handlers:
`file.name.endsWith(".txt") || file.name.endsWith(".md")`. -/
def isAllowedDescriptionName (name : String) : Bool :=
  strEndsWith name ".txt" || strEndsWith name ".md"

/-- The `handleUploadDescription` handler of the offer detail views, up to
the point where the upload request is issued: with no file or no loaded
offer it returns silently; with a badly named file it shows the error toast
and returns before any network call; otherwise it proceeds to the
`uploadDescription` request for the offer. -/
def handleUploadDescription (offer : Option Offer) (file : Option String) :
    List ClientAction :=
  match file, offer with
  | none, _ => []
  | some _, none => []
  | some name, some o =>
    if !(isAllowedDescriptionName name) then
      [ClientAction.toastError "Dozwolone formaty: .txt, .md"]
    else
      [ClientAction.uploadRequest o.id name]

/-- Whether a list of client effects contains an upload network request. -/
def uploadRequested (acts : List ClientAction) : Bool :=
  acts.any fun a =>
    match a with
    | ClientAction.uploadRequest _ _ => true
    | _ => false

/-- The `handleFileChange` handler of the create-offer page: it validates
the chosen file name and either stores the file in the form state (to be
uploaded after the offer is created) or shows the error toast and keeps the
previous selection. -/
def handleFileChange (current : Option String) (file : Option String) :
    Option String × List ClientAction :=
  match file with
  | none => (current, [])
  | some name =>
    if !(isAllowedDescriptionName name) then
      (current, [ClientAction.toastError "Dozwolone formaty: .txt, .md"])
    else
      (some name, [])

/-- Result object of the delete endpoint, `{ success: boolean; message?: string }`. -/
structure DeleteResult where
  success : Bool
  message : Option String
  deriving Repr, DecidableEq

/-- `OffersApi.deleteOffer`: the entire fetch-and-handle computation is
wrapped in a try/catch, so the function is total on outcomes.  The
parameter is the outcome of the wrapped computation: `Except.ok r` when the
response handler produced a result object, `Except.error e` when anything
threw (`e = some msg` for an `Error` with a message, `none` for any other
thrown value). -/
def deleteOffer (outcome : Except (Option String) DeleteResult) : DeleteResult :=
  match outcome with
  | Except.ok r => r
  | Except.error e => { success := false, message := some (e.getD "Failed to delete offer") }

/-- JavaScript `a || b` on `message`: `null` and the empty string fall
through to the default. -/
def jsStringOr (s : Option String) (dflt : String) : String :=
  match s with
  | none => dflt
  | some m => if m == "" then dflt else m

/-- The `handleDelete` callback of the offers list page: it awaits
`OffersApi.deleteOffer` and branches on the success flag, removing the
offer from the displayed list only on success and otherwise showing the
returned message (or a default) without touching the list. -/
def handleDelete (offers : List Offer) (offerId : String)
    (outcome : Except (Option String) DeleteResult) :
    List Offer × ClientAction :=
  let result := deleteOffer outcome
  if result.success then
    (offers.filter (fun o => o.id ≠ offerId), ClientAction.toastSuccess "Oferta usunięta")
  else
    (offers, ClientAction.toastError (jsStringOr result.message "Nie udało się usunąć oferty"))

/-- The `removeOffer` reducer of the offers slice:
`state.offers.filter((o) => o.id !== action.payload)`. -/
def removeOffer (offers : List Offer) (offerId : String) : List Offer :=
  offers.filter (fun o => o.id ≠ offerId)

/-- The `updateOfferInList` reducer of the offers slice: it looks up the
index of the entry with the payload's id (`findIndex`) and overwrites that
entry when the index is not `-1`; when no entry matches it does nothing. -/
def updateOfferInList (offers : List Offer) (payload : Offer) : List Offer :=
  match offers.findIdx? (fun o => o.id == payload.id) with
  | some idx => offers.set idx payload
  | none => offers

/-- A concrete offer used to instantiate universally quantified theorems. -/
def sampleOffer : Offer :=
  { id := "offer-1"
    company_name := "Acme"
    company_nip := none
    company_address := none
    contact_first_name := none
    contact_last_name := none
    contact_phone := none
    contact_email := none
    title := "Q1 Proposal"
    valid_until := none
    description_file_path := none
    status := "draft"
    document_path := none
    ai_generated_content := none
    raynet_company_id := none
    raynet_contact_id := none
    raynet_opportunity_id := none
    crm_opportunity_id := none
    created_at := "2024-01-01T00:00:00Z"
    updated_at := "2024-01-01T00:00:00Z" }

/-- An HTTP response as observed by the API client; only the status code
drives the control flow modelled here. -/
structure ApiResponse where
  status : Nat
  deriving Repr, DecidableEq

/-- `OffersApi.getCompanies`: a 404 response yields the empty list before
the shared response handler runs; every other response is delegated to the
handler (`ApiResponseHandler.handleResponse`, abstracted as a parameter
since its module is outside the sources embedded here). -/
def getCompanies (handle : ApiResponse → Except String (List CrmCompany))
    (resp : ApiResponse) : Except String (List CrmCompany) :=
  if resp.status = 404 then Except.ok [] else handle resp

/-- `OffersApi.getCompanyContacts`: same 404-to-empty-list shape as
`getCompanies`, for the contacts of one company. -/
def getCompanyContacts (handle : ApiResponse → Except String (List CrmContact))
    (_companyId : String) (resp : ApiResponse) : Except String (List CrmContact) :=
  if resp.status = 404 then Except.ok [] else handle resp

/-- `OffersApi.getOffers`: the offers listing also maps a 404 response to
the empty list before the shared handler runs. -/
def getOffers (handle : ApiResponse → Except String (List Offer))
    (resp : ApiResponse) : Except String (List Offer) :=
  if resp.status = 404 then Except.ok [] else handle resp

/-- The sort applied by `fetchOffers` on the offers list page:
`data.sort((a, b) => new Date(b.updated_at).getTime() - new Date(a.updated_at).getTime())`,
i.e. sorting by the parsed `updated_at` timestamp, newest first.  Timestamp
parsing (`new Date(...).getTime()`) is environment behaviour and is passed
in as `getTime`. -/
def sortOffersByUpdatedAtDesc (getTime : String → Nat) (data : List Offer) :
    List Offer :=
  data.mergeSort fun a b => decide (getTime b.updated_at ≤ getTime a.updated_at)

/-- One entry of a status lookup table: display label and badge color. -/
structure StatusInfo where
  label : String
  color : String
  deriving Repr, DecidableEq

/-- The draft entry shared by every status table in the sources. -/
def draftStatusInfo : StatusInfo :=
  { label := "Robocza", color := "bg-gray-200 text-gray-700" }

/-- The `STATUS_LABELS` table of the offer card (and of the simpler offer
detail view, which is identical), as an association list in source order. -/
def cardStatusLabels : List (String × StatusInfo) :=
  [("draft", draftStatusInfo),
   ("generated", { label := "Wygenerowana", color := "bg-blue-100 text-blue-700" }),
   ("sent", { label := "Wysłana", color := "bg-yellow-100 text-yellow-700" }),
   ("accepted", { label := "Zaakceptowana", color := "bg-green-100 text-green-700" }),
   ("expired", { label := "Wygasła", color := "bg-red-100 text-red-700" })]

/-- The `STATUS_LABELS` table of the CRM-capable offer detail view; it
differs from the card's table only in the label of `sent`. -/
def detailStatusLabels : List (String × StatusInfo) :=
  [("draft", draftStatusInfo),
   ("generated", { label := "Wygenerowana", color := "bg-blue-100 text-blue-700" }),
   ("sent", { label := "Wysłana do CRM", color := "bg-yellow-100 text-yellow-700" }),
   ("accepted", { label := "Zaakceptowana", color := "bg-green-100 text-green-700" }),
   ("expired", { label := "Wygasła", color := "bg-red-100 text-red-700" })]

/-- The member names a plain JavaScript object literal inherits from
`Object.prototype`: indexing the object with one of these yields a truthy
inherited value (a function, or the prototype object for `__proto__`) even
though the object has no own entry under that key. -/
def objectProtoKeys : List String :=
  ["constructor", "hasOwnProperty", "isPrototypeOf", "propertyIsEnumerable",
   "toLocaleString", "toString", "valueOf", "__defineGetter__",
   "__defineSetter__", "__lookupGetter__", "__lookupSetter__", "__proto__"]

/-- Result of indexing a JavaScript object literal with a string key:
an own entry, a truthy value inherited from `Object.prototype`, or
`undefined` (falsy). -/
inductive JsProp (α : Type) where
  | found (v : α)
  | protoFn
  | undef
  deriving Repr, DecidableEq

/-- JavaScript `table[key]` on an object literal whose own entries are
`table`: the own entry when the key is present, the truthy inherited value
when the key names an `Object.prototype` member, `undefined` otherwise. -/
def jsRecordGet {α : Type} (table : List (String × α)) (key : String) : JsProp α :=
  match table.lookup key with
  | some v => JsProp.found v
  | none => if key ∈ objectProtoKeys then JsProp.protoFn else JsProp.undef

/-- The value rendered for `STATUS_LABELS[status] || STATUS_LABELS.draft`:
an own entry is a truthy object and is used as is; an absent key gives
`undefined`, so the `||` falls back to the draft entry; a key naming an
inherited `Object.prototype` member gives a truthy non-entry value, so the
fallback does not fire and the badge has no label/color entry at all
(modelled as `none`). -/
def statusInfoDisplayed (table : List (String × StatusInfo)) (status : String) :
    Option StatusInfo :=
  match jsRecordGet table status with
  | JsProp.found v => some v
  | JsProp.protoFn => none
  | JsProp.undef => some draftStatusInfo

/-- The `STATUS_TRANSITIONS` table of the generic offer detail view, as an
association list in source order. -/
def statusTransitions : List (String × List String) :=
  [("draft", ["generated"]),
   ("generated", ["sent"]),
   ("sent", ["accepted", "expired"]),
   ("accepted", []),
   ("expired", [])]

/-- The manual status buttons rendered by the detail view:
`STATUS_TRANSITIONS[offer.status] || []` followed by
`.filter((s) => s !== "generated")`, so the pipeline-only transition to
`generated` is never offered as a manual action.  At an own key the filter
runs on the stored list; at an absent key `||` substitutes the empty list;
at a key naming an inherited `Object.prototype` member the `||` keeps the
truthy inherited function and the subsequent `.filter` call throws a
`TypeError`, modelled as `none`. -/
def statusButtons (status : String) : Option (List String) :=
  match jsRecordGet statusTransitions status with
  | JsProp.found v => some (v.filter fun s => s ≠ "generated")
  | JsProp.protoFn => none
  | JsProp.undef => some []

/-- Error raised by the manual status-update endpoint. -/
inductive StatusError where
  | InvalidTransition
  deriving Repr, DecidableEq

/-- Whether the manual status-update operation accepts the transition from
`s` to `t`: only `generated` to `sent`, `sent` to `accepted` and `sent` to
`expired`; in particular `draft` to `generated` is reserved to the
generation pipeline. -/
def manualAllowed (s t : String) : Bool :=
  (s == "generated" && t == "sent") ||
  (s == "sent" && t == "accepted") ||
  (s == "sent" && t == "expired")

/-- Modelled from the spec: the server-side handler for
`PATCH /api/v1/offers/:id/status` is not under `src/`; per §4.2 the manual
operation accepts an arbitrary target status string, performs the
transition when it is one of `generated → sent`, `sent → accepted`,
`sent → expired`, and fails with `InvalidTransition` for any other request,
leaving the record unchanged. -/
def updateStatus (o : Offer) (target : String) : Except StatusError Offer :=
  if manualAllowed o.status target then Except.ok { o with status := target }
  else Except.error StatusError.InvalidTransition

/-- The stored record after a status-update request: the updated offer on
success, the untouched offer together with the error on failure. -/
def applyUpdateStatus (o : Offer) (target : String) : Offer × Option StatusError :=
  match updateStatus o target with
  | Except.ok o' => (o', none)
  | Except.error e => (o, some e)

/-- Error raised by the generation pipeline: the precondition gate, or a
failure of one of the four fallible steps (1 read file, 2 call AI,
3 inject template, 4 render PDF), carrying the step's message. -/
inductive GenError where
  | PreconditionFailed
  | StepFailed (step : Nat) (msg : String)
  deriving Repr, DecidableEq

/-- The external collaborators of the generation pipeline, each fallible:
reading the stored description file, the AI structuring call, the HTML
template injection and the HTML-to-PDF renderer. -/
structure PipelineEnv where
  readFile : String → Except String String
  callAI : Offer → String → Except String String
  injectTemplate : Offer → String → Except String String
  renderPdf : String → Except String String

/-- Modelled from the spec: the server-side handler for
`POST /api/v1/offers/:id/generate-pdf` is not under `src/`; per §4.5 it
fails with `PreconditionFailed` when no description file is present, runs
steps 1–4 in order, stops at the first failing step, and only after all
four succeed persists `ai_generated_content`, `document_path` and the
`generated` status as a single update. -/
def generatePdf (env : PipelineEnv) (o : Offer) : Except GenError Offer :=
  match o.description_file_path with
  | none => Except.error GenError.PreconditionFailed
  | some path =>
    match env.readFile path with
    | Except.error m => Except.error (GenError.StepFailed 1 m)
    | Except.ok text =>
      match env.callAI o text with
      | Except.error m => Except.error (GenError.StepFailed 2 m)
      | Except.ok fragment =>
        match env.injectTemplate o fragment with
        | Except.error m => Except.error (GenError.StepFailed 3 m)
        | Except.ok html =>
          match env.renderPdf html with
          | Except.error m => Except.error (GenError.StepFailed 4 m)
          | Except.ok docPath =>
            Except.ok { o with
              ai_generated_content := some fragment
              document_path := some docPath
              status := "generated" }

/-- The stored record after a generate request: the updated offer on
success, the untouched offer together with the error on failure. -/
def applyGeneratePdf (env : PipelineEnv) (o : Offer) : Offer × Option GenError :=
  match generatePdf env o with
  | Except.ok o' => (o', none)
  | Except.error e => (o, some e)

/-- The disabled condition of the Generate PDF button in the detail views:
`disabled={isGenerating || !offer.description_file_path}`. -/
def generateButtonDisabled (isGenerating : Bool) (o : Offer) : Bool :=
  isGenerating || !(truthyStr o.description_file_path)

/-- The `canSendToCrm` gate of the CRM-capable detail view:
`offer.status === "generated" && offer.document_path && offer.raynet_company_id`,
coerced to a boolean the way JSX conditional rendering does. -/
def canSendToCrm (o : Offer) : Bool :=
  (o.status == "generated") && truthyStr o.document_path && truthyStr o.raynet_company_id

/-- Error raised by the CRM push endpoint when a precondition is violated. -/
inductive CrmError where
  | PreconditionFailed
  deriving Repr, DecidableEq

/-- Modelled from the spec: the server-side handler for
`POST /api/v1/offers/:id/send-to-crm` is not under `src/`; per §4.6 it
requires `status = generated`, a set `document_path` and a linked CRM
company id, fails with a caller-visible precondition error when any of the
three is missing, and on success records the newly created opportunity id
on the offer and advances it toward `sent`. -/
def sendToCrm (o : Offer) (newOpportunityId : String) : Except CrmError Offer :=
  if o.status = "generated" ∧ o.document_path.isSome ∧ o.raynet_company_id.isSome then
    Except.ok { o with
      raynet_opportunity_id := some newOpportunityId
      crm_opportunity_id := some newOpportunityId
      status := "sent" }
  else Except.error CrmError.PreconditionFailed

/-- C3: for every file whose name does not end in ".txt" or ".md", the
upload handlers reject it — the detail-page handler emits only the error
toast and never issues the upload request, and the create-page handler
keeps the previous selection — while for every file whose name ends in
".txt" or ".md" the detail-page handler proceeds to the upload request and
the create-page handler stores the file. -/
theorem upload_handlers_validate_extension (o : Offer) (name : String)
    (current : Option String) :
    uploadRequested (handleUploadDescription (some o) (some name)) =
      isAllowedDescriptionName name ∧
    (isAllowedDescriptionName name = false →
      handleUploadDescription (some o) (some name) =
        [ClientAction.toastError "Dozwolone formaty: .txt, .md"] ∧
      handleFileChange current (some name) =
        (current, [ClientAction.toastError "Dozwolone formaty: .txt, .md"])) ∧
    (isAllowedDescriptionName name = true →
      handleUploadDescription (some o) (some name) =
        [ClientAction.uploadRequest o.id name] ∧
      handleFileChange current (some name) = (some name, [])) := by
  cases h : isAllowedDescriptionName name <;>
    simp [handleUploadDescription, handleFileChange, uploadRequested, h]

/-- Witness for `upload_handlers_validate_extension`: at the rejected name
"desc.pdf" the detail-page handler emits only the error toast. -/
theorem upload_handlers_validate_extension_witness :
    handleUploadDescription (some sampleOffer) (some "desc.pdf") =
      [ClientAction.toastError "Dozwolone formaty: .txt, .md"] :=
  ((upload_handlers_validate_extension sampleOffer "desc.pdf" none).2.1 (by decide)).1

/-- C5: deleteOffer is total on outcomes — it maps every thrown error to a
result with the success flag set to false and a message, and passes handler
results through — and the list-page caller removes the offer from the
displayed list exactly when the flag is true, leaving the list untouched
otherwise. -/
theorem deleteOffer_soft_fail_contract (offers : List Offer) (offerId : String)
    (outcome : Except (Option String) DeleteResult) :
    (∀ e, deleteOffer (Except.error e) =
      { success := false, message := some (e.getD "Failed to delete offer") }) ∧
    (∀ r, deleteOffer (Except.ok r) = r) ∧
    ((deleteOffer outcome).success = true →
      (handleDelete offers offerId outcome).1 =
        offers.filter (fun o => o.id ≠ offerId)) ∧
    ((deleteOffer outcome).success = false →
      (handleDelete offers offerId outcome).1 = offers) := by
  refine ⟨fun e => rfl, fun r => rfl, fun h => ?_, fun h => ?_⟩ <;>
    simp [handleDelete, h]

/-- Witness for `deleteOffer_soft_fail_contract`: a failed outcome leaves a
concrete one-offer list unchanged. -/
theorem deleteOffer_soft_fail_contract_witness :
    (handleDelete [sampleOffer] "offer-1" (Except.error none)).1 = [sampleOffer] :=
  (deleteOffer_soft_fail_contract [sampleOffer] "offer-1" (Except.error none)).2.2.2 (by decide)

/-- A second concrete offer, with an id distinct from `sampleOffer`. -/
def otherOffer : Offer :=
  { sampleOffer with id := "offer-2", title := "Q2 Proposal" }

/-- Counterexample to C6 as stated: the update-in-list reducer does not
insert when no entry with the payload's id exists — updating the empty
list with a concrete offer leaves the list empty instead of inserting the
offer. -/
theorem updateOfferInList_does_not_insert :
    updateOfferInList [] sampleOffer = [] ∧
    sampleOffer ∉ updateOfferInList [] sampleOffer := by
  constructor
  · rfl
  · intro h
    simp [updateOfferInList, List.findIdx?] at h

/-- C6 (amended): the offers store exposes reducer-style pure update
functions including remove-by-id and update-by-id: remove-by-id keeps
exactly the entries whose id differs, and the update-in-list reducer
replaces the first list entry with the payload's id when one exists — the
replaced position matches the payload's id and every earlier position does
not — and leaves the list unchanged when no entry with that id exists. -/
theorem offers_store_reducers (offers : List Offer) (payload : Offer)
    (offerId : String) :
    (∀ x, x ∈ removeOffer offers offerId ↔ (x ∈ offers ∧ x.id ≠ offerId)) ∧
    ((∀ o ∈ offers, o.id ≠ payload.id) → updateOfferInList offers payload = offers) ∧
    ((∃ o ∈ offers, o.id = payload.id) →
      ∃ j : Fin offers.length, (offers.get j).id = payload.id ∧
        (∀ k : Fin offers.length, k < j → (offers.get k).id ≠ payload.id) ∧
        updateOfferInList offers payload = offers.set j payload) := by
  refine ⟨fun x => ?_, fun h => ?_, fun h => ?_⟩
  · simp [removeOffer]
  · have : offers.findIdx? (fun o => o.id == payload.id) = none := by
      rw [List.findIdx?_eq_none_iff]
      intro x hx
      simpa using h x hx
    simp [updateOfferInList, this]
  · have hex : ∃ x, x ∈ offers ∧ (fun o : Offer => o.id == payload.id) x := by
      obtain ⟨o, ho, hid⟩ := h
      exact ⟨o, ho, by simpa using hid⟩
    have hidx := List.findIdx?_eq_some_of_exists hex
    obtain ⟨hlt, hp, hmin⟩ := List.findIdx?_eq_some_iff_getElem.mp hidx
    refine ⟨⟨offers.findIdx fun o => o.id == payload.id, hlt⟩, ?_, ?_, ?_⟩
    · simpa using hp
    · intro k hk
      have hk' : (k : Nat) < offers.findIdx fun o => o.id == payload.id := hk
      have := hmin k.val hk'
      simpa using this
    · simp [updateOfferInList, hidx]

/-- Witness for `offers_store_reducers`: a payload whose id matches no
entry leaves a concrete one-offer list unchanged, and updating a concrete
two-offer list with the first offer's id replaces exactly the first entry,
the earlier positions (none) all differing. -/
theorem offers_store_reducers_witness :
    updateOfferInList [otherOffer] sampleOffer = [otherOffer] ∧
    ∃ j : Fin ([sampleOffer, otherOffer] : List Offer).length,
      (([sampleOffer, otherOffer] : List Offer).get j).id = sampleOffer.id ∧
      (∀ k : Fin ([sampleOffer, otherOffer] : List Offer).length, k < j →
        (([sampleOffer, otherOffer] : List Offer).get k).id ≠ sampleOffer.id) ∧
      updateOfferInList [sampleOffer, otherOffer] sampleOffer =
        ([sampleOffer, otherOffer] : List Offer).set j sampleOffer :=
  ⟨(offers_store_reducers [otherOffer] sampleOffer "x").2.1 (by decide),
   (offers_store_reducers [sampleOffer, otherOffer] sampleOffer "x").2.2
     ⟨sampleOffer, by decide, rfl⟩⟩

/-- C7: for every response with HTTP status 404, getCompanies and
getCompanyContacts return the empty list instead of throwing, whatever the
shared response handler would have done. -/
theorem crm_lists_treat_404_as_empty
    (hc : ApiResponse → Except String (List CrmCompany))
    (hk : ApiResponse → Except String (List CrmContact))
    (companyId : String) (resp : ApiResponse) :
    resp.status = 404 →
      getCompanies hc resp = Except.ok [] ∧
      getCompanyContacts hk companyId resp = Except.ok [] := by
  intro h
  exact ⟨by simp [getCompanies, h], by simp [getCompanyContacts, h]⟩

/-- Witness for `crm_lists_treat_404_as_empty`: a concrete 404 response
with a handler that would throw still yields the empty company list. -/
theorem crm_lists_treat_404_as_empty_witness :
    getCompanies (fun _ => Except.error "boom") { status := 404 } = Except.ok [] :=
  (crm_lists_treat_404_as_empty (fun _ => Except.error "boom")
    (fun _ => Except.error "boom") "c-1" { status := 404 } rfl).1

/-- C10: getOffers also maps every response with HTTP status 404 to the
empty offers list without throwing, the same shape the CRM mirror endpoints
use. -/
theorem offers_list_treats_404_as_empty
    (handle : ApiResponse → Except String (List Offer)) (resp : ApiResponse) :
    resp.status = 404 → getOffers handle resp = Except.ok [] := by
  intro h
  simp [getOffers, h]

/-- Witness for `offers_list_treats_404_as_empty`: a concrete 404 response
with a handler that would throw still yields the empty offers list. -/
theorem offers_list_treats_404_as_empty_witness :
    getOffers (fun _ => Except.error "boom") { status := 404 } = Except.ok [] :=
  offers_list_treats_404_as_empty (fun _ => Except.error "boom") { status := 404 } rfl

/-- C8: the offers list page sorts the fetched offers by updated_at
descending before display — every adjacent pair of the displayed list is in
non-increasing timestamp order, and the displayed list is a permutation of
the fetched list. -/
theorem offers_list_sorted_desc (getTime : String → Nat) (data : List Offer) :
    List.Chain' (fun a b => getTime b.updated_at ≤ getTime a.updated_at)
      (sortOffersByUpdatedAtDesc getTime data) ∧
    List.Perm (sortOffersByUpdatedAtDesc getTime data) data := by
  constructor
  · have h : (data.mergeSort
        (fun a b => decide (getTime b.updated_at ≤ getTime a.updated_at))).Pairwise
        (fun a b => (decide (getTime b.updated_at ≤ getTime a.updated_at)) = true) :=
      List.sorted_mergeSort
        (fun a b c hab hbc => by simp at hab hbc ⊢; omega)
        (fun a b => by
          simpa using Nat.le_total (getTime b.updated_at) (getTime a.updated_at)) data
    exact (h.imp fun hb => by simpa using hb).chain'
  · exact List.mergeSort_perm data _

/-- Counterexample to C9 as stated: the status "toString" is none of the
five known statuses, yet the badge lookup of both views does not fall back
to the draft entry — the object literal inherits a truthy `toString` from
`Object.prototype`, so the `||` fallback never fires and no entry is
displayed. -/
theorem status_label_no_draft_fallback_at_proto_key :
    "toString" ∉ ["draft", "generated", "sent", "accepted", "expired"] ∧
    statusInfoDisplayed cardStatusLabels "toString" ≠ some draftStatusInfo ∧
    statusInfoDisplayed detailStatusLabels "toString" ≠ some draftStatusInfo := by
  refine ⟨by decide, by decide, by decide⟩

/-- C9 (amended): for every status string that is neither one of the five
known statuses nor the name of a member inherited from Object.prototype,
the badge lookup of the card view and of the detail views falls back to
the draft entry; for each known status it returns that status's own entry;
and at an inherited Object.prototype member name the lookup keeps the
truthy inherited value, so the draft fallback does not fire and no entry
is displayed. -/
theorem status_label_fallback (s : String) :
    (s ∉ ["draft", "generated", "sent", "accepted", "expired"] →
      s ∉ objectProtoKeys →
      statusInfoDisplayed cardStatusLabels s = some draftStatusInfo ∧
      statusInfoDisplayed detailStatusLabels s = some draftStatusInfo) ∧
    (∀ kv ∈ cardStatusLabels, statusInfoDisplayed cardStatusLabels kv.1 = some kv.2) ∧
    (∀ kv ∈ detailStatusLabels, statusInfoDisplayed detailStatusLabels kv.1 = some kv.2) ∧
    (s ∈ objectProtoKeys →
      statusInfoDisplayed cardStatusLabels s = none ∧
      statusInfoDisplayed detailStatusLabels s = none) := by
  refine ⟨fun h hp => ?_, fun kv hkv => ?_, fun kv hkv => ?_, fun hp => ?_⟩
  · simp only [List.mem_cons, List.mem_singleton, not_or] at h
    obtain ⟨h1, h2, h3, h4, h5, -⟩ := h
    have e1 : (s == "draft") = false := by simp [h1]
    have e2 : (s == "generated") = false := by simp [h2]
    have e3 : (s == "sent") = false := by simp [h3]
    have e4 : (s == "accepted") = false := by simp [h4]
    have e5 : (s == "expired") = false := by simp [h5]
    constructor <;>
      simp [statusInfoDisplayed, jsRecordGet, cardStatusLabels, detailStatusLabels,
        List.lookup, e1, e2, e3, e4, e5, hp]
  · fin_cases hkv <;> rfl
  · fin_cases hkv <;> rfl
  · have h1 : s ≠ "draft" := fun e => absurd (e ▸ hp) (by decide)
    have h2 : s ≠ "generated" := fun e => absurd (e ▸ hp) (by decide)
    have h3 : s ≠ "sent" := fun e => absurd (e ▸ hp) (by decide)
    have h4 : s ≠ "accepted" := fun e => absurd (e ▸ hp) (by decide)
    have h5 : s ≠ "expired" := fun e => absurd (e ▸ hp) (by decide)
    have e1 : (s == "draft") = false := by simp [h1]
    have e2 : (s == "generated") = false := by simp [h2]
    have e3 : (s == "sent") = false := by simp [h3]
    have e4 : (s == "accepted") = false := by simp [h4]
    have e5 : (s == "expired") = false := by simp [h5]
    constructor <;>
      simp [statusInfoDisplayed, jsRecordGet, cardStatusLabels, detailStatusLabels,
        List.lookup, e1, e2, e3, e4, e5, hp]

/-- Witness for `status_label_fallback`: the unknown status "archived"
renders with the draft badge in the card view, while the inherited key
"valueOf" yields no entry at all. -/
theorem status_label_fallback_witness :
    statusInfoDisplayed cardStatusLabels "archived" = some draftStatusInfo ∧
    statusInfoDisplayed cardStatusLabels "valueOf" = none :=
  ⟨((status_label_fallback "archived").1 (by decide) (by decide)).1,
   ((status_label_fallback "valueOf").2.2.2 (by decide)).1⟩

/-- A pipeline environment whose very first step (reading the description
file) fails, used to instantiate failure theorems. -/
def failingReadEnv : PipelineEnv :=
  { readFile := fun _ => Except.error "io error"
    callAI := fun _ _ => Except.ok "<p>body</p>"
    injectTemplate := fun _ frag => Except.ok frag
    renderPdf := fun _ => Except.ok "/documents/offer.pdf" }

/-- C1: generatePdf fails with PreconditionFailed whenever the offer has no
description file (and the UI generate button is disabled in that state),
and every failure of the pipeline — the precondition gate or any of steps
1–4 — leaves the stored offer exactly as it was before the call. -/
theorem generatePdf_precondition_and_rollback (env : PipelineEnv) (o : Offer)
    (isGenerating : Bool) :
    (o.description_file_path = none →
      generatePdf env o = Except.error GenError.PreconditionFailed ∧
      generateButtonDisabled isGenerating o = true) ∧
    (∀ e, generatePdf env o = Except.error e → (applyGeneratePdf env o).1 = o) := by
  constructor
  · intro h
    constructor
    · simp [generatePdf, h]
    · simp [generateButtonDisabled, truthyStr, h]
  · intro e he
    simp [applyGeneratePdf, he]

/-- Witness for `generatePdf_precondition_and_rollback`: the sample offer
has no description file, so a concrete generate call fails with the
precondition error and the stored offer is unchanged. -/
theorem generatePdf_precondition_and_rollback_witness :
    generatePdf failingReadEnv sampleOffer = Except.error GenError.PreconditionFailed ∧
    (applyGeneratePdf failingReadEnv sampleOffer).1 = sampleOffer :=
  ⟨((generatePdf_precondition_and_rollback failingReadEnv sampleOffer false).1 rfl).1,
   (generatePdf_precondition_and_rollback failingReadEnv sampleOffer false).2
     GenError.PreconditionFailed
     ((generatePdf_precondition_and_rollback failingReadEnv sampleOffer false).1 rfl).1⟩

/-- Enumeration of the manual transition rule as a proposition. -/
theorem manualAllowed_iff (s t : String) :
    manualAllowed s t = true ↔
      ((s = "generated" ∧ t = "sent") ∨ (s = "sent" ∧ t = "accepted") ∨
        (s = "sent" ∧ t = "expired")) := by
  simp only [manualAllowed, Bool.or_eq_true, Bool.and_eq_true, beq_iff_eq]
  tauto

/-- The manual buttons offered by the detail view, by status: a button
list for the five stored statuses and for absent keys, and the
`TypeError` crash (`none`) at inherited Object.prototype member names. -/
theorem statusButtons_eq (s : String) :
    statusButtons s =
      if s = "generated" then some ["sent"]
      else if s = "sent" then some ["accepted", "expired"]
      else if s = "draft" ∨ s = "accepted" ∨ s = "expired" then some []
      else if s ∈ objectProtoKeys then none
      else some [] := by
  by_cases h2 : s = "generated"
  · subst h2; rfl
  by_cases h3 : s = "sent"
  · subst h3; rfl
  by_cases h1 : s = "draft"
  · subst h1; rfl
  by_cases h4 : s = "accepted"
  · subst h4; rfl
  by_cases h5 : s = "expired"
  · subst h5; rfl
  have e1 : (s == "draft") = false := by simp [h1]
  have e2 : (s == "generated") = false := by simp [h2]
  have e3 : (s == "sent") = false := by simp [h3]
  have e4 : (s == "accepted") = false := by simp [h4]
  have e5 : (s == "expired") = false := by simp [h5]
  by_cases hp : s ∈ objectProtoKeys <;>
    simp [statusButtons, jsRecordGet, statusTransitions, List.lookup,
      e1, e2, e3, e4, e5, h1, h2, h3, h4, h5, hp]

/-- C2: the status machine admits exactly the transitions
generated → sent, sent → accepted and sent → expired through the manual
status-update operation; the target generated is never reachable manually
(it is produced only by the generation pipeline); a successful manual
update changes nothing but the status; every other request fails with
InvalidTransition and leaves the record unchanged; and whenever the detail
view renders a button list at all (it crashes at statuses naming inherited
Object.prototype members), the offered buttons coincide with the
transitions the operation accepts. -/
theorem status_machine_transitions (o : Offer) (t : String) :
    ((updateStatus o t).isOk = true ↔
      ((o.status = "generated" ∧ t = "sent") ∨ (o.status = "sent" ∧ t = "accepted") ∨
        (o.status = "sent" ∧ t = "expired"))) ∧
    (updateStatus o "generated" = Except.error StatusError.InvalidTransition) ∧
    (∀ o', updateStatus o t = Except.ok o' → o' = { o with status := t }) ∧
    (∀ e, updateStatus o t = Except.error e →
      (applyUpdateStatus o t).1 = o ∧ e = StatusError.InvalidTransition) ∧
    (∀ env o', generatePdf env o = Except.ok o' → o'.status = "generated") ∧
    (∀ l, statusButtons o.status = some l →
      (t ∈ l ↔ manualAllowed o.status t = true)) := by
  refine ⟨?_, ?_, ?_, ?_, ?_, ?_⟩
  · rw [← manualAllowed_iff]
    unfold updateStatus
    split
    next hc => exact iff_of_true rfl hc
    next hc => exact iff_of_false (by simp [Except.isOk, Except.toBool]) hc
  · unfold updateStatus
    have : manualAllowed o.status "generated" = false := by
      simp [manualAllowed]
    simp [this]
  · intro o' h
    unfold updateStatus at h
    split at h
    · exact (Except.ok.inj h).symm
    · exact absurd h (by simp)
  · intro e h
    refine ⟨by simp [applyUpdateStatus, h], ?_⟩
    unfold updateStatus at h
    split at h
    · exact absurd h (by simp)
    · exact (Except.error.inj h).symm
  · intro env o' h
    unfold generatePdf at h
    repeat' split at h
    all_goals first
      | exact Except.noConfusion h
      | (injection h with h'
         subst h'
         rfl)
  · intro l hl
    rw [statusButtons_eq] at hl
    rw [manualAllowed_iff]
    by_cases h2 : o.status = "generated"
    · rw [if_pos h2] at hl
      cases Option.some.inj hl
      simp [h2]
    by_cases h3 : o.status = "sent"
    · rw [if_neg h2, if_pos h3] at hl
      cases Option.some.inj hl
      simp [h3, h2]
    · rw [if_neg h2, if_neg h3] at hl
      have hl' : l = [] := by
        split at hl
        · exact (Option.some.inj hl).symm
        · split at hl
          · exact absurd hl (by simp)
          · exact (Option.some.inj hl).symm
      subst hl'
      simp [h2, h3]

/-- Witness for `status_machine_transitions`: a concrete sent offer moves
to accepted through the manual operation. -/
theorem status_machine_transitions_witness :
    (updateStatus { sampleOffer with status := "sent" } "accepted").isOk = true :=
  (status_machine_transitions { sampleOffer with status := "sent" } "accepted").1.mpr
    (Or.inr (Or.inl ⟨rfl, rfl⟩))

/-- An offer meeting the spec's CRM-push preconditions with a non-null but
empty document path: the generated PDF reference is the empty string. -/
def emptyPathOffer : Offer :=
  { sampleOffer with
      status := "generated"
      document_path := some ""
      raynet_company_id := some "RC-17" }

/-- Counterexample to C4 as stated: at this offer the three claimed
conditions hold — status is generated, document_path is non-null and a
linked CRM company id is present — yet the canSendToCrm gate is false,
because the JavaScript truthiness test rejects the empty string. -/
theorem canSendToCrm_not_nonnull_conjunction :
    emptyPathOffer.status = "generated" ∧
    emptyPathOffer.document_path ≠ none ∧
    emptyPathOffer.raynet_company_id ≠ none ∧
    canSendToCrm emptyPathOffer = false := by
  refine ⟨rfl, by simp [emptyPathOffer], by simp [emptyPathOffer], rfl⟩

/-- C4 (amended): sendToCrm succeeds exactly when status is generated,
document_path is set and a linked CRM company id is present, failing with a
caller-visible precondition error otherwise and recording the new
opportunity id on success; the UI's canSendToCrm gate is the conjunction of
status = generated, document_path truthy (non-null and non-empty) and
raynet_company_id truthy (non-null and non-empty). -/
theorem sendToCrm_preconditions (o : Offer) (oppId : String) :
    ((sendToCrm o oppId).isOk = true ↔
      (o.status = "generated" ∧ o.document_path.isSome = true ∧
        o.raynet_company_id.isSome = true)) ∧
    (¬(o.status = "generated" ∧ o.document_path.isSome = true ∧
        o.raynet_company_id.isSome = true) →
      sendToCrm o oppId = Except.error CrmError.PreconditionFailed) ∧
    (∀ o', sendToCrm o oppId = Except.ok o' →
      o'.raynet_opportunity_id = some oppId ∧ o'.crm_opportunity_id = some oppId) ∧
    (canSendToCrm o = true ↔
      (o.status = "generated" ∧ truthyStr o.document_path = true ∧
        truthyStr o.raynet_company_id = true)) := by
  refine ⟨?_, fun h => ?_, fun o' h => ?_, ?_⟩
  · unfold sendToCrm
    split
    next hc => exact iff_of_true rfl hc
    next hc => exact iff_of_false (by simp [Except.isOk, Except.toBool]) hc
  · unfold sendToCrm
    split
    · exact absurd (by assumption) h
    · rfl
  · unfold sendToCrm at h
    split at h
    · rw [← Except.ok.inj h]
      exact ⟨rfl, rfl⟩
    · exact absurd h (by simp)
  · simp [canSendToCrm, Bool.and_eq_true, beq_iff_eq, and_assoc]

/-- An offer meeting all three CRM-push preconditions with truthy values. -/
def crmReadyOffer : Offer :=
  { sampleOffer with
      status := "generated"
      document_path := some "/documents/offer-1.pdf"
      raynet_company_id := some "RC-17" }

/-- Witness for `sendToCrm_preconditions`: the push succeeds on a concrete
offer meeting all three preconditions, and its gate is open. -/
theorem sendToCrm_preconditions_witness :
    (sendToCrm crmReadyOffer "OPP-9").isOk = true ∧
    canSendToCrm crmReadyOffer = true :=
  ⟨(sendToCrm_preconditions crmReadyOffer "OPP-9").1.mpr ⟨rfl, rfl, rfl⟩,
   (sendToCrm_preconditions crmReadyOffer "OPP-9").2.2.2.mpr ⟨rfl, by decide, by decide⟩⟩

end OfferGen
